import Mathlib

/-!
Shallow embedding of the mercury-mcp repository (src/tools.py, src/main.py):
a tool-calling adapter around the Mercury banking REST API.

Python values decoded from JSON are modelled by `JValue`; HTTP traffic is
modelled by an oracle `http : HttpRequest → HttpResponse` passed to each
operation, and each operation returns the list of HTTP requests it issued
(its network trace) together with its outcome, an `Except MercuryError`.
Python exceptions are the `Except.error` branch: the `ValueError` raised by
`get_api_token` plays the spec's `ConfigurationError` role, the
`requests.HTTPError` raised by `response.raise_for_status()` plays the
spec's `UpstreamError` role, and pydantic validation failures are
`validationError`. Python floats are carried opaquely as rationals: the
code never computes with them, it only passes them through.
-/

namespace Mercury

/-- A decoded JSON value, as returned by `response.json()` in tools.py. -/
inductive JValue where
  | str : String → JValue
  | num : ℚ → JValue
  | bool : Bool → JValue
  | null : JValue
  | arr : List JValue → JValue
  | obj : List (String × JValue) → JValue
  deriving Repr

/-- Python `dict.get(key)` on the field list of a JSON object:
the value of the first binding of `key`, or `none` when the key is absent. -/
def jGetF (fields : List (String × JValue)) (key : String) : Option JValue :=
  (fields.find? (fun p => p.1 = key)).map (fun p => p.2)

/-- One outbound HTTP request, as assembled by `requests.request(...)` in
`make_mercury_request`: method, absolute URL, the basic-auth pair passed as
`auth=(token, "")`, the query parameters (`params=` kwarg) and the JSON body
(`json=` kwarg). -/
structure HttpRequest where
  method : String
  url : String
  authUser : String
  authPass : String
  params : List (String × Int)
  jsonBody : Option (List (String × JValue))
  deriving Repr

/-- An upstream HTTP response: status code and decoded JSON body. -/
structure HttpResponse where
  statusCode : Nat
  body : JValue

/-- The errors the Python code can raise.
`configurationError` is the `ValueError` of `get_api_token` (the spec's
`ConfigurationError`); `upstreamError` is the `requests.HTTPError` of
`response.raise_for_status()` (the spec's `UpstreamError`), carrying the
response's status code and body; `validationError` is a pydantic
model-construction failure. -/
inductive MercuryError where
  | configurationError : String → MercuryError
  | upstreamError : Nat → JValue → MercuryError
  | validationError : String → MercuryError
  deriving Repr

def MERCURY_API_BASE_URL : String := "https://api.mercury.com/api/v1"

/-- The message of the `ValueError` raised when the token is missing. -/
def token_missing_msg : String :=
  "MERCURY_API_TOKEN environment variable is not set. Please set it in your deployment environment variables."

/-- Model of `get_api_token`: `os.getenv("MERCURY_API_TOKEN", "")` yields `""` when the
variable is absent, and `if not token:` raises a `ValueError` exactly when the
string is empty. The environment is modelled as `Option String`. -/
def get_api_token (env : Option String) : Except MercuryError String :=
  let token := env.getD ""
  if token = "" then
    Except.error (MercuryError.configurationError token_missing_msg)
  else
    Except.ok token

/-- The request `make_mercury_request` assembles: URL is
`f"{MERCURY_API_BASE_URL}/{endpoint}"` and auth is `(token, "")`. -/
def mercuryRequest (token : String) (method : String) (endpoint : String)
    (params : List (String × Int)) (jsonBody : Option (List (String × JValue))) :
    HttpRequest :=
  { method := method
    url := MERCURY_API_BASE_URL ++ "/" ++ endpoint
    authUser := token
    authPass := ""
    params := params
    jsonBody := jsonBody }

/-- Predicate for `response.raise_for_status()`: it raises `requests.HTTPError` precisely for
client-error and server-error status codes, `400 ≤ status < 600`
(informational and redirect statuses such as 304 do not raise). -/
def is_http_error (status : Nat) : Bool :=
  400 ≤ status && status < 600

/-- Model of `make_mercury_request(method, endpoint, **kwargs)`: resolve the token
(raising before any network traffic when it is missing), build the request,
send it once, raise `HTTPError` on a 4xx/5xx status, otherwise return the
decoded JSON body. The first component is the network trace: the list of
HTTP requests actually issued. -/
def make_mercury_request (env : Option String)
    (http : HttpRequest → HttpResponse) (method : String) (endpoint : String)
    (params : List (String × Int)) (jsonBody : Option (List (String × JValue))) :
    List HttpRequest × Except MercuryError JValue :=
  match get_api_token env with
  | Except.error e => ([], Except.error e)
  | Except.ok token =>
    let req := mercuryRequest token method endpoint params jsonBody
    let resp := http req
    if is_http_error resp.statusCode then
      ([req], Except.error (MercuryError.upstreamError resp.statusCode resp.body))
    else
      ([req], Except.ok resp.body)

/-- pydantic-style optional `str` field: absent or JSON null maps to `None`,
a string maps to itself, anything else is a validation error. -/
def asOptStr (v : Option JValue) : Option (Option String) :=
  match v with
  | none => some none
  | some JValue.null => some none
  | some (JValue.str s) => some (some s)
  | some _ => none

/-- pydantic-style optional numeric field (`Optional[float]`). -/
def asOptNum (v : Option JValue) : Option (Option ℚ) :=
  match v with
  | none => some none
  | some JValue.null => some none
  | some (JValue.num q) => some (some q)
  | some _ => none

/-- pydantic-style optional `dict` field (`Optional[dict]`). -/
def asOptObj (v : Option JValue) : Option (Option (List (String × JValue))) :=
  match v with
  | none => some none
  | some JValue.null => some none
  | some (JValue.obj fs) => some (some fs)
  | some _ => none

/-- The `Account` pydantic model. -/
structure Account where
  id : String
  name : String
  account_number : Option String
  routing_number : Option String
  available_balance : Option ℚ
  current_balance : Option ℚ
  currency : Option String
  deriving Repr

/-- Model of `Account(**account)`: requires a mapping with string `id` and `name`;
optional fields default to `None` when absent; a wrongly-typed field is a
validation error (`none`). -/
def parseAccount (j : JValue) : Option Account :=
  match j with
  | JValue.obj fields =>
    match jGetF fields "id", jGetF fields "name" with
    | some (JValue.str i), some (JValue.str n) =>
      match asOptStr (jGetF fields "account_number"),
            asOptStr (jGetF fields "routing_number"),
            asOptNum (jGetF fields "available_balance"),
            asOptNum (jGetF fields "current_balance"),
            asOptStr (jGetF fields "currency") with
      | some an, some rn, some ab, some cb, some cur =>
        some { id := i, name := n, account_number := an, routing_number := rn,
               available_balance := ab, current_balance := cb, currency := cur }
      | _, _, _, _, _ => none
    | _, _ => none
  | _ => none

/-- The `AccountsResult` pydantic model: a list of accounts plus a count. -/
structure AccountsResult where
  accounts : List Account
  count : Nat
  deriving Repr

/-- The `Transaction` pydantic model. -/
structure Transaction where
  id : String
  account_id : String
  amount : ℚ
  counterparty : Option (List (String × JValue))
  category : Option String
  description : Option String
  date : Option String
  status : Option String
  deriving Repr

/-- Model of `Transaction(**tx)`: requires a mapping with string `id`, string
`account_id` and numeric `amount`; the rest are optional. -/
def parseTransaction (j : JValue) : Option Transaction :=
  match j with
  | JValue.obj fields =>
    match jGetF fields "id", jGetF fields "account_id", jGetF fields "amount" with
    | some (JValue.str i), some (JValue.str a), some (JValue.num amt) =>
      match asOptObj (jGetF fields "counterparty"),
            asOptStr (jGetF fields "category"),
            asOptStr (jGetF fields "description"),
            asOptStr (jGetF fields "date"),
            asOptStr (jGetF fields "status") with
      | some cp, some cat, some desc, some dt, some st =>
        some { id := i, account_id := a, amount := amt, counterparty := cp,
               category := cat, description := desc, date := dt, status := st }
      | _, _, _, _, _ => none
    | _, _, _ => none
  | _ => none

/-- The `TransactionsResult` pydantic model. -/
structure TransactionsResult where
  transactions : List Transaction
  count : Nat
  deriving Repr

/-- Python iteration over a decoded JSON value: a list yields its elements,
a dict yields its keys, a string yields its characters, anything else is a
`TypeError` (`none`). -/
def pyIter (v : JValue) : Option (List JValue) :=
  match v with
  | JValue.arr xs => some xs
  | JValue.obj fields => some (fields.map (fun p => JValue.str p.1))
  | JValue.str s => some (s.toList.map (fun c => JValue.str (String.mk [c])))
  | _ => none

/-- Model of `data.get(key, [])` followed by iteration, as in the two list tools:
`data` must be a dict (else `.get` is an `AttributeError`); a missing key
yields the empty list; a present value is iterated Python-style. -/
def getIterField (data : JValue) (key : String) : Option (List JValue) :=
  match data with
  | JValue.obj fields =>
    match jGetF fields key with
    | none => some []
    | some v => pyIter v
  | _ => none

/-- Model of `get_accounts()`: GET `accounts`, build one `Account` per element of
`data.get("accounts", [])`, and return them with a locally computed count. -/
def get_accounts (env : Option String) (http : HttpRequest → HttpResponse) :
    List HttpRequest × Except MercuryError AccountsResult :=
  let r := make_mercury_request env http "GET" "accounts" [] none
  (r.1,
    match r.2 with
    | Except.error e => Except.error e
    | Except.ok data =>
      match getIterField data "accounts" with
      | none => Except.error (MercuryError.validationError "accounts")
      | some items =>
        match items.mapM parseAccount with
        | none => Except.error (MercuryError.validationError "Account")
        | some accounts =>
          Except.ok { accounts := accounts, count := accounts.length })

/-- Model of `get_account(account_id)`: GET `accounts/{account_id}` and build a single
`Account` from the whole decoded body. -/
def get_account (env : Option String) (http : HttpRequest → HttpResponse)
    (account_id : String) : List HttpRequest × Except MercuryError Account :=
  let r := make_mercury_request env http "GET" ("accounts/" ++ account_id) [] none
  (r.1,
    match r.2 with
    | Except.error e => Except.error e
    | Except.ok data =>
      match parseAccount data with
      | none => Except.error (MercuryError.validationError "Account")
      | some a => Except.ok a)

/-- The query-parameter dict of `get_transactions`: starts empty, adds
`limit` and then `offset` only under `is not None` checks. -/
def transaction_params (limit offset : Option Int) : List (String × Int) :=
  (match limit with
   | some l => [("limit", l)]
   | none => [])
  ++ (match offset with
      | some o => [("offset", o)]
      | none => [])

/-- Model of `get_transactions(account_id, limit, offset)`: GET
`accounts/{account_id}/transactions` with the optional query params, build
one `Transaction` per element of `data.get("transactions", [])`, and return
them with a locally computed count. -/
def get_transactions (env : Option String) (http : HttpRequest → HttpResponse)
    (account_id : String) (limit offset : Option Int) :
    List HttpRequest × Except MercuryError TransactionsResult :=
  let r := make_mercury_request env http "GET"
    ("accounts/" ++ account_id ++ "/transactions")
    (transaction_params limit offset) none
  (r.1,
    match r.2 with
    | Except.error e => Except.error e
    | Except.ok data =>
      match getIterField data "transactions" with
      | none => Except.error (MercuryError.validationError "transactions")
      | some items =>
        match items.mapM parseTransaction with
        | none => Except.error (MercuryError.validationError "Transaction")
        | some transactions =>
          Except.ok { transactions := transactions, count := transactions.length })

/-- Python truthiness of an `Optional[str]` argument: truthy exactly when it
is a non-empty string (both `None` and `""` are falsy). -/
def truthy (o : Option String) : Bool :=
  match o with
  | none => false
  | some s => !(s = "")

/-- The JSON body `create_payment_entry_template` builds: always
`account_id`, `amount` and `requires_approval: True`; then
`if counterparty_id: ... elif counterparty_name: ...`; then `memo` and
`external_id` each under their own truthiness check. -/
def payment_payload (account_id : String) (amount : ℚ)
    (counterparty_id counterparty_name memo external_id : Option String) :
    List (String × JValue) :=
  [("account_id", JValue.str account_id),
   ("amount", JValue.num amount),
   ("requires_approval", JValue.bool true)]
  ++ (if truthy counterparty_id then
        [("counterparty_id", JValue.str (counterparty_id.getD ""))]
      else if truthy counterparty_name then
        [("counterparty_name", JValue.str (counterparty_name.getD ""))]
      else [])
  ++ (if truthy memo then [("memo", JValue.str (memo.getD ""))] else [])
  ++ (if truthy external_id then
        [("external_id", JValue.str (external_id.getD ""))] else [])

/-- The `PaymentEntryTemplate` pydantic model; `requires_approval` defaults
to `True`. -/
structure PaymentEntryTemplate where
  id : Option String
  account_id : String
  amount : ℚ
  counterparty_id : Option String
  counterparty_name : Option String
  memo : Option String
  external_id : Option String
  status : Option String
  requires_approval : Bool
  deriving Repr

/-- Model of `PaymentEntryTemplate(**data)`: requires a mapping with string
`account_id` and numeric `amount`; `requires_approval` defaults to `True`
when absent; the rest are optional strings. -/
def parsePaymentEntry (j : JValue) : Option PaymentEntryTemplate :=
  match j with
  | JValue.obj fields =>
    match jGetF fields "account_id", jGetF fields "amount" with
    | some (JValue.str a), some (JValue.num amt) =>
      match asOptStr (jGetF fields "id"),
            asOptStr (jGetF fields "counterparty_id"),
            asOptStr (jGetF fields "counterparty_name"),
            asOptStr (jGetF fields "memo"),
            asOptStr (jGetF fields "external_id"),
            asOptStr (jGetF fields "status") with
      | some i, some ci, some cn, some m, some ei, some st =>
        match jGetF fields "requires_approval" with
        | none =>
          some { id := i, account_id := a, amount := amt, counterparty_id := ci,
                 counterparty_name := cn, memo := m, external_id := ei,
                 status := st, requires_approval := true }
        | some (JValue.bool b) =>
          some { id := i, account_id := a, amount := amt, counterparty_id := ci,
                 counterparty_name := cn, memo := m, external_id := ei,
                 status := st, requires_approval := b }
        | some _ => none
      | _, _, _, _, _, _ => none
    | _, _ => none
  | _ => none

/-- The `PaymentEntryResult` pydantic model. -/
structure PaymentEntryResult where
  success : Bool
  entry : PaymentEntryTemplate
  message : String
  deriving Repr

/-- Model of `create_payment_entry_template(...)`: POST `transactions` with the
payload built by `payment_payload`, parse the response into a
`PaymentEntryTemplate`, and wrap it in a success result. -/
def create_payment_entry_template (env : Option String)
    (http : HttpRequest → HttpResponse) (account_id : String) (amount : ℚ)
    (counterparty_id counterparty_name memo external_id : Option String) :
    List HttpRequest × Except MercuryError PaymentEntryResult :=
  let r := make_mercury_request env http "POST" "transactions" []
    (some (payment_payload account_id amount counterparty_id
      counterparty_name memo external_id))
  (r.1,
    match r.2 with
    | Except.error e => Except.error e
    | Except.ok data =>
      match parsePaymentEntry data with
      | none => Except.error (MercuryError.validationError "PaymentEntryTemplate")
      | some entry =>
        Except.ok
          { success := true
            entry := entry
            message := "Payment entry template created successfully and is pending admin approval" })

/-- Model of `get_counterparties()`: GET `counterparties` and return the decoded JSON
unmodified. -/
def get_counterparties (env : Option String)
    (http : HttpRequest → HttpResponse) :
    List HttpRequest × Except MercuryError JValue :=
  make_mercury_request env http "GET" "counterparties" [] none

/-- The module-level `tools` list of tools.py, by tool name, in order. -/
def tools : List String :=
  ["get_accounts", "get_account", "get_transactions",
   "create_payment_entry_template", "get_counterparties"]

/-- The import block at the top of main.py: `from .tools import tools` may
itself fail (modelled as the `Except.error` branch of `imported`); an empty
list raises `RuntimeError("tools list is empty - ...")`; the `except` clause
wraps any of these in `RuntimeError(f"Failed to import tools: {e}")` and
re-raises, so startup aborts. -/
def startup_tools (imported : Except String (List String)) :
    Except String (List String) :=
  match imported with
  | Except.error e => Except.error ("Failed to import tools: " ++ e)
  | Except.ok ts =>
    if ts.isEmpty then
      Except.error
        "Failed to import tools: tools list is empty - no tools available for discovery"
    else
      Except.ok ts

/-- The possible non-raising outcomes of the Lambda `handler` in main.py:
the discovery dictionary `{"tools": [...], "server": server}`, the value
returned by the framework dispatch, or the bare `server` object returned by
the fallback branches. -/
inductive HandlerValue where
  | discoveryInfo : List String → HandlerValue
  | dispatchResult : String → HandlerValue
  | serverObject : HandlerValue
  deriving Repr, DecidableEq

/-- Model of `handler(event, context)` from main.py. `toolNames` is the registry;
`isDiscoveryEvent` models the `event.get("method") == "tools/list" or
"tools" in str(event).lower()` test; `hasDispatch` models
`hasattr(server, "handle") or hasattr(server, "__call__")`; `dispatch`
models what `server.handle(event, context)` does (its return value, or the
exception it raises). The `try`/`except` around dispatch catches every
exception, logs it, and returns the `server` object instead of re-raising. -/
def handler (toolNames : List String) (isDiscoveryEvent : Bool)
    (hasDispatch : Bool) (dispatch : Except String String) :
    Except String HandlerValue :=
  if toolNames.isEmpty then
    Except.error "No tools available - tool discovery will fail"
  else if isDiscoveryEvent then
    Except.ok (HandlerValue.discoveryInfo toolNames)
  else if hasDispatch then
    match dispatch with
    | Except.ok r => Except.ok (HandlerValue.dispatchResult r)
    | Except.error _ => Except.ok HandlerValue.serverObject
  else
    Except.ok HandlerValue.serverObject

/-! ## Helper lemmas about the request wrapper -/

/-- When the token is missing or empty, the wrapper raises the
configuration error and issues no HTTP request. -/
theorem make_mercury_request_noToken (env : Option String)
    (http : HttpRequest → HttpResponse) (method endpoint : String)
    (params : List (String × Int)) (jsonBody : Option (List (String × JValue)))
    (h : env.getD "" = "") :
    make_mercury_request env http method endpoint params jsonBody =
      ([], Except.error (MercuryError.configurationError token_missing_msg)) := by
  simp [make_mercury_request, get_api_token, h]

/-- When the token is present, the wrapper issues exactly the assembled
request and forwards the response, raising on a 4xx/5xx status. -/
theorem make_mercury_request_token (env : Option String)
    (http : HttpRequest → HttpResponse) (method endpoint : String)
    (params : List (String × Int)) (jsonBody : Option (List (String × JValue)))
    (h : ¬ env.getD "" = "") :
    make_mercury_request env http method endpoint params jsonBody =
      (if is_http_error
          (http (mercuryRequest (env.getD "") method endpoint params jsonBody)).statusCode then
        ([mercuryRequest (env.getD "") method endpoint params jsonBody],
         Except.error (MercuryError.upstreamError
           (http (mercuryRequest (env.getD "") method endpoint params jsonBody)).statusCode
           (http (mercuryRequest (env.getD "") method endpoint params jsonBody)).body))
      else
        ([mercuryRequest (env.getD "") method endpoint params jsonBody],
         Except.ok (http (mercuryRequest (env.getD "") method endpoint params jsonBody)).body)) := by
  simp [make_mercury_request, get_api_token, h]

/-- The network trace of a wrapper call: empty without a token, otherwise a
single assembled request. -/
theorem make_mercury_request_trace (env : Option String)
    (http : HttpRequest → HttpResponse) (method endpoint : String)
    (params : List (String × Int)) (jsonBody : Option (List (String × JValue))) :
    (make_mercury_request env http method endpoint params jsonBody).1 =
      if env.getD "" = "" then []
      else [mercuryRequest (env.getD "") method endpoint params jsonBody] := by
  by_cases h : env.getD "" = ""
  · simp [make_mercury_request_noToken env http method endpoint params jsonBody h, h]
  · rw [make_mercury_request_token env http method endpoint params jsonBody h]
    by_cases h2 : is_http_error
        (http (mercuryRequest (env.getD "") method endpoint params jsonBody)).statusCode <;>
      simp [h, h2]

/-- Membership in a wrapper call's trace pins down the request. -/
theorem mem_make_mercury_request_trace (env : Option String)
    (http : HttpRequest → HttpResponse) (method endpoint : String)
    (params : List (String × Int)) (jsonBody : Option (List (String × JValue)))
    (req : HttpRequest)
    (hreq : req ∈ (make_mercury_request env http method endpoint params jsonBody).1) :
    ¬ env.getD "" = "" ∧
      req = mercuryRequest (env.getD "") method endpoint params jsonBody := by
  rw [make_mercury_request_trace] at hreq
  by_cases h : env.getD "" = ""
  · simp [h] at hreq
  · simp [h] at hreq
    exact ⟨h, hreq⟩

/-! ## Claim theorems -/

/-- C1: for every call to `create_payment_entry_template`, regardless of all
caller-supplied arguments, every HTTP request it sends upstream carries a
JSON body binding the key `requires_approval` to `true` (it is both a member
of the body and the value found by key lookup). -/
theorem C1_requires_approval_forced_true
    (env : Option String) (http : HttpRequest → HttpResponse)
    (account_id : String) (amount : ℚ)
    (counterparty_id counterparty_name memo external_id : Option String)
    (req : HttpRequest)
    (hreq : req ∈ (create_payment_entry_template env http account_id amount
      counterparty_id counterparty_name memo external_id).1) :
    ∃ body, req.jsonBody = some body ∧
      ("requires_approval", JValue.bool true) ∈ body ∧
      jGetF body "requires_approval" = some (JValue.bool true) := by
  obtain ⟨-, rfl⟩ := mem_make_mercury_request_trace env http "POST" "transactions" []
    (some (payment_payload account_id amount counterparty_id counterparty_name
      memo external_id)) req hreq
  refine ⟨payment_payload account_id amount counterparty_id counterparty_name
    memo external_id, rfl, ?_, ?_⟩
  · simp [payment_payload]
  · simp [payment_payload, jGetF, List.find?]

/-- C8: every HTTP request issued through the wrapper targets the fixed base
URL `https://api.mercury.com/api/v1` concatenated with `"/"` and the relative
path, and carries the resolved token as basic-auth username with the empty
string as password. -/
theorem C8_url_and_basic_auth
    (env : Option String) (http : HttpRequest → HttpResponse)
    (method endpoint : String) (params : List (String × Int))
    (jsonBody : Option (List (String × JValue))) (req : HttpRequest)
    (hreq : req ∈ (make_mercury_request env http method endpoint params jsonBody).1) :
    req.url = MERCURY_API_BASE_URL ++ "/" ++ endpoint ∧
    MERCURY_API_BASE_URL = "https://api.mercury.com/api/v1" ∧
    ∃ token, get_api_token env = Except.ok token ∧
      req.authUser = token ∧ req.authPass = "" := by
  obtain ⟨h, rfl⟩ := mem_make_mercury_request_trace env http method endpoint
    params jsonBody req hreq
  exact ⟨rfl, rfl, env.getD "", by simp [get_api_token, h], rfl, rfl⟩

/-- C9: every HTTP request issued by `get_transactions` carries `limit` and
`offset` query parameters exactly when the caller supplied them, each with
exactly the caller-supplied value; when both are omitted the parameter list
is empty (no default is substituted). -/
theorem C9_limit_offset_passthrough
    (env : Option String) (http : HttpRequest → HttpResponse)
    (account_id : String) (limit offset : Option Int) (req : HttpRequest)
    (hreq : req ∈ (get_transactions env http account_id limit offset).1) :
    req.params = transaction_params limit offset ∧
    (limit = none → offset = none → req.params = []) ∧
    req.params.lookup "limit" = limit ∧
    req.params.lookup "offset" = offset := by
  obtain ⟨-, rfl⟩ := mem_make_mercury_request_trace env http "GET"
    ("accounts/" ++ account_id ++ "/transactions")
    (transaction_params limit offset) none req hreq
  refine ⟨rfl, ?_, ?_, ?_⟩ <;>
    cases limit <;> cases offset <;>
      simp [mercuryRequest, transaction_params, List.lookup]

/-- Witness for C1 at a concrete call. -/
theorem C1_witness :
    ∃ body, (mercuryRequest "tok" "POST" "transactions" []
        (some (payment_payload "acct-1" 5 none none none none))).jsonBody = some body ∧
      ("requires_approval", JValue.bool true) ∈ body ∧
      jGetF body "requires_approval" = some (JValue.bool true) :=
  C1_requires_approval_forced_true (some "tok")
    (fun _ => { statusCode := 200, body := JValue.obj [] })
    "acct-1" 5 none none none none
    (mercuryRequest "tok" "POST" "transactions" []
      (some (payment_payload "acct-1" 5 none none none none)))
    (by
      show mercuryRequest "tok" "POST" "transactions" []
          (some (payment_payload "acct-1" 5 none none none none)) ∈
        (make_mercury_request (some "tok")
          (fun _ => { statusCode := 200, body := JValue.obj [] }) "POST"
          "transactions" []
          (some (payment_payload "acct-1" 5 none none none none))).1
      rw [make_mercury_request_trace]
      simp)

/-- Witness for C8 at a concrete call. -/
theorem C8_witness :
    (mercuryRequest "tok" "GET" "accounts" [] none).url =
      MERCURY_API_BASE_URL ++ "/" ++ "accounts" ∧
    MERCURY_API_BASE_URL = "https://api.mercury.com/api/v1" ∧
    ∃ token, get_api_token (some "tok") = Except.ok token ∧
      (mercuryRequest "tok" "GET" "accounts" [] none).authUser = token ∧
      (mercuryRequest "tok" "GET" "accounts" [] none).authPass = "" :=
  C8_url_and_basic_auth (some "tok")
    (fun _ => { statusCode := 200, body := JValue.obj [] })
    "GET" "accounts" [] none
    (mercuryRequest "tok" "GET" "accounts" [] none)
    (by rw [make_mercury_request_trace]; simp)

/-- Witness for C9 at a concrete call with limit 10 and offset 5. -/
theorem C9_witness :
    (mercuryRequest "tok" "GET" ("accounts/" ++ "a1" ++ "/transactions")
        (transaction_params (some 10) (some 5)) none).params =
      transaction_params (some 10) (some 5) ∧
    (some 10 = (none : Option Int) → some 5 = (none : Option Int) →
      (mercuryRequest "tok" "GET" ("accounts/" ++ "a1" ++ "/transactions")
        (transaction_params (some 10) (some 5)) none).params = []) ∧
    (mercuryRequest "tok" "GET" ("accounts/" ++ "a1" ++ "/transactions")
        (transaction_params (some 10) (some 5)) none).params.lookup "limit" = some 10 ∧
    (mercuryRequest "tok" "GET" ("accounts/" ++ "a1" ++ "/transactions")
        (transaction_params (some 10) (some 5)) none).params.lookup "offset" = some 5 :=
  C9_limit_offset_passthrough (some "tok")
    (fun _ => { statusCode := 200, body := JValue.obj [] })
    "a1" (some 10) (some 5)
    (mercuryRequest "tok" "GET" ("accounts/" ++ "a1" ++ "/transactions")
      (transaction_params (some 10) (some 5)) none)
    (by
      show mercuryRequest "tok" "GET" ("accounts/" ++ "a1" ++ "/transactions")
          (transaction_params (some 10) (some 5)) none ∈
        (make_mercury_request (some "tok")
          (fun _ => { statusCode := 200, body := JValue.obj [] }) "GET"
          ("accounts/" ++ "a1" ++ "/transactions")
          (transaction_params (some 10) (some 5)) none).1
      rw [make_mercury_request_trace]
      simp)

/-- Key-lookup characterization of the payment payload's optional keys. -/
theorem payment_payload_lookup (account_id : String) (amount : ℚ)
    (cid cname memo eid : Option String) :
    jGetF (payment_payload account_id amount cid cname memo eid) "counterparty_id"
      = (if truthy cid then some (JValue.str (cid.getD "")) else none) ∧
    jGetF (payment_payload account_id amount cid cname memo eid) "counterparty_name"
      = (if truthy cid then none
         else if truthy cname then some (JValue.str (cname.getD "")) else none) ∧
    jGetF (payment_payload account_id amount cid cname memo eid) "memo"
      = (if truthy memo then some (JValue.str (memo.getD "")) else none) ∧
    jGetF (payment_payload account_id amount cid cname memo eid) "external_id"
      = (if truthy eid then some (JValue.str (eid.getD "")) else none) := by
  by_cases h1 : truthy cid <;> by_cases h2 : truthy cname <;>
    by_cases h3 : truthy memo <;> by_cases h4 : truthy eid <;>
      simp [payment_payload, jGetF, List.find?, h1, h2, h3, h4]

/-- C2: the outgoing JSON body of `create_payment_entry_template` contains
exactly the optional keys the rules dictate, reading "supplied" as the code
does (a non-empty string; `None` and `""` both count as not supplied): with
both counterparty fields supplied only `counterparty_id` appears, with only
`counterparty_name` supplied only it appears, with neither supplied neither
key appears; `memo` and `external_id` appear with the exact caller-supplied
value when supplied and non-empty, and are omitted when empty or absent. -/
theorem C2_optional_keys_exact
    (env : Option String) (http : HttpRequest → HttpResponse)
    (account_id : String) (amount : ℚ)
    (cid cname memo eid : Option String) (req : HttpRequest)
    (hreq : req ∈ (create_payment_entry_template env http account_id amount
      cid cname memo eid).1) :
    req.jsonBody = some (payment_payload account_id amount cid cname memo eid) ∧
    (∀ ci cn, cid = some ci → ci ≠ "" → cname = some cn → cn ≠ "" →
      jGetF (payment_payload account_id amount cid cname memo eid) "counterparty_id"
          = some (JValue.str ci) ∧
      jGetF (payment_payload account_id amount cid cname memo eid) "counterparty_name"
          = none) ∧
    (∀ cn, (cid = none ∨ cid = some "") → cname = some cn → cn ≠ "" →
      jGetF (payment_payload account_id amount cid cname memo eid) "counterparty_name"
          = some (JValue.str cn) ∧
      jGetF (payment_payload account_id amount cid cname memo eid) "counterparty_id"
          = none) ∧
    ((cid = none ∨ cid = some "") → (cname = none ∨ cname = some "") →
      jGetF (payment_payload account_id amount cid cname memo eid) "counterparty_id"
          = none ∧
      jGetF (payment_payload account_id amount cid cname memo eid) "counterparty_name"
          = none) ∧
    (∀ m, memo = some m → m ≠ "" →
      jGetF (payment_payload account_id amount cid cname memo eid) "memo"
          = some (JValue.str m)) ∧
    ((memo = none ∨ memo = some "") →
      jGetF (payment_payload account_id amount cid cname memo eid) "memo" = none) ∧
    (∀ x, eid = some x → x ≠ "" →
      jGetF (payment_payload account_id amount cid cname memo eid) "external_id"
          = some (JValue.str x)) ∧
    ((eid = none ∨ eid = some "") →
      jGetF (payment_payload account_id amount cid cname memo eid) "external_id"
          = none) := by
  obtain ⟨-, rfl⟩ := mem_make_mercury_request_trace env http "POST" "transactions" []
    (some (payment_payload account_id amount cid cname memo eid)) req hreq
  obtain ⟨hci, hcn, hm, hx⟩ := payment_payload_lookup account_id amount cid cname memo eid
  refine ⟨rfl, ?_, ?_, ?_, ?_, ?_, ?_, ?_⟩
  · rintro ci cn rfl hci' rfl hcn'
    have t1 : truthy (some ci) = true := by simp [truthy, hci']
    rw [t1] at hci hcn
    simp at hci hcn
    exact ⟨hci, hcn⟩
  · rintro cn hcid rfl hcn'
    have t1 : truthy cid = false := by
      rcases hcid with rfl | rfl <;> simp [truthy]
    have t2 : truthy (some cn) = true := by simp [truthy, hcn']
    rw [t1] at hci hcn
    rw [t2] at hcn
    simp at hci hcn
    exact ⟨hcn, hci⟩
  · rintro hcid hcname
    have t1 : truthy cid = false := by
      rcases hcid with rfl | rfl <;> simp [truthy]
    have t2 : truthy cname = false := by
      rcases hcname with rfl | rfl <;> simp [truthy]
    rw [t1] at hci hcn
    rw [t2] at hcn
    simp at hci hcn
    exact ⟨hci, hcn⟩
  · rintro m rfl hm'
    have t1 : truthy (some m) = true := by simp [truthy, hm']
    rw [t1] at hm
    simpa using hm
  · rintro hmemo
    have t1 : truthy memo = false := by
      rcases hmemo with rfl | rfl <;> simp [truthy]
    rw [t1] at hm
    simpa using hm
  · rintro x rfl hx'
    have t1 : truthy (some x) = true := by simp [truthy, hx']
    rw [t1] at hx
    simpa using hx
  · rintro heid
    have t1 : truthy eid = false := by
      rcases heid with rfl | rfl <;> simp [truthy]
    rw [t1] at hx
    simpa using hx

/-- Witness for C2 at a concrete call supplying both counterparty fields. -/
theorem C2_witness :
    (mercuryRequest "tok" "POST" "transactions" []
        (some (payment_payload "acct-1" 5 (some "CID") (some "CN") (some "m") none))).jsonBody
      = some (payment_payload "acct-1" 5 (some "CID") (some "CN") (some "m") none) :=
  (C2_optional_keys_exact (some "tok")
    (fun _ => { statusCode := 200, body := JValue.obj [] })
    "acct-1" 5 (some "CID") (some "CN") (some "m") none
    (mercuryRequest "tok" "POST" "transactions" []
      (some (payment_payload "acct-1" 5 (some "CID") (some "CN") (some "m") none)))
    (by
      show mercuryRequest "tok" "POST" "transactions" []
          (some (payment_payload "acct-1" 5 (some "CID") (some "CN") (some "m") none)) ∈
        (make_mercury_request (some "tok")
          (fun _ => { statusCode := 200, body := JValue.obj [] }) "POST"
          "transactions" []
          (some (payment_payload "acct-1" 5 (some "CID") (some "CN") (some "m") none))).1
      rw [make_mercury_request_trace]
      simp)).1

/-- The wrapper's outcome on a non-error status: the decoded body. -/
theorem make_mercury_request_snd_ok (env : Option String)
    (http : HttpRequest → HttpResponse) (method endpoint : String)
    (params : List (String × Int)) (jsonBody : Option (List (String × JValue)))
    (htok : ¬ env.getD "" = "")
    (hstat : is_http_error
      (http (mercuryRequest (env.getD "") method endpoint params jsonBody)).statusCode
        = false) :
    (make_mercury_request env http method endpoint params jsonBody).2 =
      Except.ok (http (mercuryRequest (env.getD "") method endpoint params jsonBody)).body := by
  rw [make_mercury_request_token env http method endpoint params jsonBody htok]
  simp [hstat]

/-- The wrapper's outcome on a 4xx/5xx status: the upstream error carrying
the status and body. -/
theorem make_mercury_request_snd_err (env : Option String)
    (http : HttpRequest → HttpResponse) (method endpoint : String)
    (params : List (String × Int)) (jsonBody : Option (List (String × JValue)))
    (htok : ¬ env.getD "" = "")
    (hstat : is_http_error
      (http (mercuryRequest (env.getD "") method endpoint params jsonBody)).statusCode
        = true) :
    (make_mercury_request env http method endpoint params jsonBody).2 =
      Except.error (MercuryError.upstreamError
        (http (mercuryRequest (env.getD "") method endpoint params jsonBody)).statusCode
        (http (mercuryRequest (env.getD "") method endpoint params jsonBody)).body) := by
  rw [make_mercury_request_token env http method endpoint params jsonBody htok]
  simp [hstat]

/-- C3: for every successful call to a list operation, the `count` field of
the result equals the length of the returned sequence — for every upstream
response whatsoever (the count is computed locally from the parsed list,
never taken from the upstream payload). -/
theorem C3_count_equals_length
    (env : Option String) (http : HttpRequest → HttpResponse)
    (account_id : String) (limit offset : Option Int) :
    (∀ r, (get_accounts env http).2 = Except.ok r → r.count = r.accounts.length) ∧
    (∀ r, (get_transactions env http account_id limit offset).2 = Except.ok r →
      r.count = r.transactions.length) := by
  constructor
  · intro r h
    unfold get_accounts at h
    dsimp only at h
    split at h
    · simp at h
    · split at h
      · simp at h
      · split at h
        · simp at h
        · obtain rfl : _ = r := Except.ok.inj h
          rfl
  · intro r h
    unfold get_transactions at h
    dsimp only at h
    split at h
    · simp at h
    · split at h
      · simp at h
      · split at h
        · simp at h
        · obtain rfl : _ = r := Except.ok.inj h
          rfl

/-- Witness for C3 at a concrete successful call returning no accounts. -/
theorem C3_witness :
    ({ accounts := [], count := 0 } : AccountsResult).count =
      ({ accounts := [], count := 0 } : AccountsResult).accounts.length :=
  (C3_count_equals_length (some "tok")
    (fun _ => { statusCode := 200, body := JValue.obj [] }) "a1" none none).1
    { accounts := [], count := 0 } rfl

/-- C4: under a missing or empty `MERCURY_API_TOKEN`, every tool invocation
fails with the configuration error (the `ValueError` of `get_api_token`) and
its network trace is empty: the HTTP request function is never reached. -/
theorem C4_missing_token_fails_before_network
    (env : Option String) (http : HttpRequest → HttpResponse)
    (account_id : String) (limit offset : Option Int) (amount : ℚ)
    (cid cname memo eid : Option String)
    (h : env = none ∨ env = some "") :
    get_accounts env http =
      ([], Except.error (MercuryError.configurationError token_missing_msg)) ∧
    get_account env http account_id =
      ([], Except.error (MercuryError.configurationError token_missing_msg)) ∧
    get_transactions env http account_id limit offset =
      ([], Except.error (MercuryError.configurationError token_missing_msg)) ∧
    create_payment_entry_template env http account_id amount cid cname memo eid =
      ([], Except.error (MercuryError.configurationError token_missing_msg)) ∧
    get_counterparties env http =
      ([], Except.error (MercuryError.configurationError token_missing_msg)) := by
  have hg : env.getD "" = "" := by rcases h with rfl | rfl <;> rfl
  have key : ∀ method endpoint params jsonBody,
      make_mercury_request env http method endpoint params jsonBody =
        ([], Except.error (MercuryError.configurationError token_missing_msg)) :=
    fun method endpoint params jsonBody =>
      make_mercury_request_noToken env http method endpoint params jsonBody hg
  refine ⟨?_, ?_, ?_, ?_, ?_⟩ <;>
    simp [get_accounts, get_account, get_transactions,
      create_payment_entry_template, get_counterparties, key]

/-- Witness for C4 with the variable absent. -/
theorem C4_witness :
    get_accounts none (fun _ => { statusCode := 200, body := JValue.obj [] }) =
      ([], Except.error (MercuryError.configurationError token_missing_msg)) :=
  (C4_missing_token_fails_before_network none
    (fun _ => { statusCode := 200, body := JValue.obj [] })
    "a1" none none 5 none none none none (Or.inl rfl)).1

/-- C5 counterexample: a 304 upstream response has a non-2xx status, yet
`get_accounts` succeeds instead of failing with an upstream error —
`raise_for_status` raises only for 4xx/5xx statuses. -/
theorem C5_counterexample :
    is_http_error 304 = false ∧
    304 / 100 ≠ 2 ∧
    (get_accounts (some "tok")
        (fun _ => { statusCode := 304, body := JValue.obj [] })).2 =
      Except.ok { accounts := [], count := 0 } :=
  ⟨rfl, by decide, rfl⟩

/-- C5 (amended): every wrapper call issues exactly one HTTP request (no
retry); when the upstream status is 4xx/5xx the wrapper fails with an
`UpstreamError` carrying the original status code and response body, and a
wrapper error propagates unchanged through every tool to its caller. -/
theorem C5_amended_upstream_error_4xx5xx
    (env : Option String) (http : HttpRequest → HttpResponse)
    (method endpoint : String) (params : List (String × Int))
    (jsonBody : Option (List (String × JValue)))
    (htok : ¬ env.getD "" = "") :
    (make_mercury_request env http method endpoint params jsonBody).1.length = 1 ∧
    (∀ req, req ∈ (make_mercury_request env http method endpoint params jsonBody).1 →
      400 ≤ (http req).statusCode → (http req).statusCode < 600 →
      (make_mercury_request env http method endpoint params jsonBody).2 =
        Except.error (MercuryError.upstreamError (http req).statusCode (http req).body)) ∧
    (∀ e, (make_mercury_request env http "GET" "accounts" [] none).2 = Except.error e →
      (get_accounts env http).2 = Except.error e) ∧
    (∀ aid e, (make_mercury_request env http "GET" ("accounts/" ++ aid) [] none).2
        = Except.error e →
      (get_account env http aid).2 = Except.error e) ∧
    (∀ aid l o e, (make_mercury_request env http "GET"
        ("accounts/" ++ aid ++ "/transactions") (transaction_params l o) none).2
        = Except.error e →
      (get_transactions env http aid l o).2 = Except.error e) ∧
    (∀ aid amt ci cn m x e, (make_mercury_request env http "POST" "transactions" []
        (some (payment_payload aid amt ci cn m x))).2 = Except.error e →
      (create_payment_entry_template env http aid amt ci cn m x).2 = Except.error e) ∧
    (∀ e, (make_mercury_request env http "GET" "counterparties" [] none).2
        = Except.error e →
      (get_counterparties env http).2 = Except.error e) := by
  refine ⟨?_, ?_, ?_, ?_, ?_, ?_, ?_⟩
  · rw [make_mercury_request_trace]
    simp [htok]
  · intro req hreq h4 h6
    obtain ⟨-, rfl⟩ := mem_make_mercury_request_trace env http method endpoint
      params jsonBody req hreq
    refine make_mercury_request_snd_err env http method endpoint params jsonBody htok ?_
    simp [is_http_error]
    exact ⟨h4, h6⟩
  · intro e he
    simp [get_accounts, he]
  · intro aid e he
    simp [get_account, he]
  · intro aid l o e he
    simp [get_transactions, he]
  · intro aid amt ci cn m x e he
    simp [create_payment_entry_template, he]
  · intro e he
    simp [get_counterparties, he]

/-- Witness for the amended C5 at a concrete 500 response. -/
theorem C5_witness :
    (make_mercury_request (some "tok")
        (fun _ => { statusCode := 500, body := JValue.obj [] })
        "GET" "accounts" [] none).2 =
      Except.error (MercuryError.upstreamError 500 (JValue.obj [])) :=
  ((C5_amended_upstream_error_4xx5xx (some "tok")
      (fun _ => { statusCode := 500, body := JValue.obj [] })
      "GET" "accounts" [] none (by decide)).2.1)
    (mercuryRequest "tok" "GET" "accounts" [] none)
    (by rw [make_mercury_request_trace]; simp)
    (by decide) (by decide)

/-- C10: on a successful upstream response whose decoded JSON object lacks
the `accounts` (resp. `transactions`) key, the list operation does not fail:
it returns an empty sequence with count 0. -/
theorem C10_missing_key_empty_result
    (env : Option String) (http : HttpRequest → HttpResponse)
    (account_id : String) (limit offset : Option Int)
    (htok : ¬ env.getD "" = "") :
    (∀ fields,
      is_http_error (http (mercuryRequest (env.getD "") "GET" "accounts" []
        none)).statusCode = false →
      (http (mercuryRequest (env.getD "") "GET" "accounts" [] none)).body
        = JValue.obj fields →
      jGetF fields "accounts" = none →
      (get_accounts env http).2 = Except.ok { accounts := [], count := 0 }) ∧
    (∀ fields,
      is_http_error (http (mercuryRequest (env.getD "") "GET"
        ("accounts/" ++ account_id ++ "/transactions")
        (transaction_params limit offset) none)).statusCode = false →
      (http (mercuryRequest (env.getD "") "GET"
        ("accounts/" ++ account_id ++ "/transactions")
        (transaction_params limit offset) none)).body = JValue.obj fields →
      jGetF fields "transactions" = none →
      (get_transactions env http account_id limit offset).2 =
        Except.ok { transactions := [], count := 0 }) := by
  constructor
  · intro fields hstat hbody hkey
    have h2 := make_mercury_request_snd_ok env http "GET" "accounts" [] none htok hstat
    rw [hbody] at h2
    simp [get_accounts, h2, getIterField, hkey]
    rfl
  · intro fields hstat hbody hkey
    have h2 := make_mercury_request_snd_ok env http "GET"
      ("accounts/" ++ account_id ++ "/transactions")
      (transaction_params limit offset) none htok hstat
    rw [hbody] at h2
    simp [get_transactions, h2, getIterField, hkey]
    rfl

/-- Witness for C10 at a concrete response without an `accounts` key. -/
theorem C10_witness :
    (get_accounts (some "tok")
        (fun _ => { statusCode := 200, body := JValue.obj [("other", JValue.num 1)] })).2 =
      Except.ok { accounts := [], count := 0 } :=
  ((C10_missing_key_empty_result (some "tok")
      (fun _ => { statusCode := 200, body := JValue.obj [("other", JValue.num 1)] })
      "a1" none none (by decide)).1)
    [("other", JValue.num 1)] rfl rfl rfl

/-- C6: startup never yields an empty or partial registry: a successful
startup returns exactly the imported, non-empty tool list; an import failure
or an empty list aborts startup with a fatal error; and the repository's own
registry is non-empty (five tools). -/
theorem C6_fail_fast_registry (imported : Except String (List String)) :
    (∀ ts, startup_tools imported = Except.ok ts → ts ≠ [] ∧ imported = Except.ok ts) ∧
    (∀ e, imported = Except.error e →
      startup_tools imported = Except.error ("Failed to import tools: " ++ e)) ∧
    (imported = Except.ok [] →
      startup_tools imported = Except.error
        "Failed to import tools: tools list is empty - no tools available for discovery") ∧
    tools ≠ [] := by
  refine ⟨?_, ?_, ?_, by simp [tools]⟩
  · intro ts h
    cases imported with
    | error e => simp [startup_tools] at h
    | ok ts' =>
      by_cases he : ts'.isEmpty = true
      · simp [startup_tools, he] at h
      · simp [startup_tools, he] at h
        subst h
        exact ⟨by simpa using he, rfl⟩
  · rintro e rfl
    rfl
  · rintro rfl
    rfl

/-- Witness for C6 at a concrete successful import. -/
theorem C6_witness :
    ["get_accounts"] ≠ ([] : List String) ∧
    (Except.ok ["get_accounts"] : Except String (List String)) =
      Except.ok ["get_accounts"] :=
  (C6_fail_fast_registry (Except.ok ["get_accounts"])).1 ["get_accounts"] rfl

/-- C7 counterexample: with the repository's registry and a dispatch that
raises `"boom"`, the handler neither re-raises nor returns a dispatch
result — it catches the error and returns the `server` object fallback. -/
theorem C7_counterexample :
    handler tools false true (Except.error "boom") =
      Except.ok HandlerValue.serverObject ∧
    handler tools false true (Except.error "boom") ≠
      (Except.error "boom" : Except String HandlerValue) := by
  constructor
  · rfl
  · simp [handler, tools]

/-- C7 (amended): the handler returns the framework dispatch result when
dispatch succeeds and a dispatch method exists; a dispatch error is caught
and the handler returns the `server` object instead of re-raising (so no
dispatch error propagates); discovery events return the tool list; the only
error the handler itself raises is the empty-registry error. -/
theorem C7_amended_handler_catches_dispatch_errors
    (names : List String) (hasD : Bool) (dispatch : Except String String)
    (hne : names ≠ []) :
    (∀ r, dispatch = Except.ok r → hasD = true →
      handler names false hasD dispatch = Except.ok (HandlerValue.dispatchResult r)) ∧
    (∀ e, dispatch = Except.error e →
      handler names false hasD dispatch = Except.ok HandlerValue.serverObject) ∧
    (hasD = false →
      handler names false hasD dispatch = Except.ok HandlerValue.serverObject) ∧
    handler names true hasD dispatch = Except.ok (HandlerValue.discoveryInfo names) ∧
    (∀ disc, handler [] disc hasD dispatch =
      Except.error "No tools available - tool discovery will fail") := by
  have hne' : names.isEmpty = false := by simpa using hne
  refine ⟨?_, ?_, ?_, ?_, ?_⟩
  · rintro r rfl rfl
    simp [handler, hne']
  · rintro e rfl
    cases hasD <;> simp [handler, hne']
  · rintro rfl
    cases dispatch <;> simp [handler, hne']
  · simp [handler, hne']
  · intro disc
    simp [handler]

/-- Witness for the amended C7 at a concrete successful dispatch. -/
theorem C7_witness :
    handler tools false true (Except.ok "result") =
      Except.ok (HandlerValue.dispatchResult "result") :=
  ((C7_amended_handler_catches_dispatch_errors tools true (Except.ok "result")
      (by decide)).1) "result" rfl rfl

end Mercury
